import Mathlib

/-!
Shallow embedding of the AI Marketing Agent repository
(src/claude_agent.py, src/main_app.py, src/schemas.py) and proofs of the
spec claims about it.

Conventions of the embedding:
  - Python `datetime` values used only as opaque timestamps are modelled
    by `Timestamp := Nat`; calendar structure matters only for the
    mock-brief deadline computation, which uses the `Date` type below.
  - Python exceptions are modelled by the `PyError` type; functions that
    can raise return `Except PyError _`.  `str_of_error` models Python
    `str(e)` (the message of the exception).
  - Python `dict` objects are modelled by insertion-ordered association
    lists (`List (String × _)`) with `dictGet` / `dictInsert` mirroring
    `d.get(k)` / `d[k] = v` (overwrite keeps the original position,
    fresh keys are appended, as CPython does).
  - The JSON values produced by `json.loads` are modelled by `Json`;
    the outcome of `json.loads` on a raw string is supplied to the
    embedding as a `DecodeResult` (the decoder itself is the Python
    standard library, not code of this repository).
  - The Anthropic network client is modelled by `AgentEnv`: whether a
    client exists (`client_available`), what a call to it would yield
    (`api_result`), what `json.loads` yields on any raw text (`decode`)
    and the current time (`now`).
-/

/-- Timestamps that the code only stores and never inspects. -/
abbrev Timestamp := Nat

/-- JSON values as returned by `json.loads`: null, booleans, numbers,
strings, arrays and objects (objects as insertion-ordered key/value lists). -/
inductive Json where
  | null : Json
  | bool (b : Bool) : Json
  | num (n : Int) : Json
  | str (s : String) : Json
  | arr (l : List Json) : Json
  | obj (l : List (String × Json)) : Json

/-- Python exceptions raised by the modelled code paths. -/
inductive PyError where
  | valueError (msg : String) : PyError
  | typeError (msg : String) : PyError
  | keyError (msg : String) : PyError
  | validationError (msg : String) : PyError
deriving DecidableEq

/-- Python `str(e)`: the message carried by the exception. -/
def str_of_error : PyError → String
  | .valueError m => m
  | .typeError m => m
  | .keyError m => m
  | .validationError m => m

/-- Python `d.get(k)` on an insertion-ordered dict. -/
def dictGet {α : Type} (l : List (String × α)) (k : String) : Option α :=
  match l with
  | [] => none
  | (k2, v) :: rest => if k2 = k then some v else dictGet rest k

/-- Python `d[k] = v`: overwrite in place when the key exists, append otherwise. -/
def dictInsert {α : Type} (l : List (String × α)) (k : String) (v : α) : List (String × α) :=
  match l with
  | [] => [(k, v)]
  | (k2, v2) :: rest => if k2 = k then (k2, v) :: rest else (k2, v2) :: dictInsert rest k v

/-- Campaign brief input schema (src/schemas.py, class CampaignBrief).
All fields are plain strings in the source; optional fields are `Option`. -/
structure CampaignBrief where
  campaign_id : String
  company_name : String
  brand_name : String
  campaign_type : String
  objective : String
  target_audience : String
  key_message : String
  brand_voice : String
  brand_values : String
  budget : String
  platforms : List String
  deadline : String
  created_date : String
  additional_notes : Option String
  airtable_record_id : Option String
  assigned_to : Option String
  priority : Option String

/-- Validator `CampaignBrief.validate_brand_voice` (src/schemas.py lines 56-61):
rejects a brand voice shorter than 3 characters after trimming. -/
def validate_brand_voice (v : String) : Except PyError String :=
  if (v.trim.length < 3) then
    .error (.valueError "Brand voice must be at least 3 characters")
  else
    .ok v.trim

/-- Email copy structure (src/schemas.py, class EmailCopy). -/
structure EmailCopy where
  subject_line : String
  body_text : String

/-- Response schema from the Campaign Manager agent
(src/schemas.py, class AgentResponse).  `confidence_score` is never
populated by current logic; its numeric type is irrelevant to the claims. -/
structure AgentResponse where
  campaign_id : String
  context_id : Option String := none
  strategy_summary : String
  post_text : String
  email_copy : EmailCopy
  image_prompt : String
  agent_notes : String
  generated_at : Timestamp
  confidence_score : Option Rat := none

/-- MCP-style memory context (src/schemas.py, class MemoryContext). -/
structure MemoryContext where
  context_id : String
  agent_role : String
  input_data : List (String × Json)
  conversation_history : List Json
  output_memory : List (String × Json)
  reasoning_log : List String
  status : String
  created_at : Timestamp
  updated_at : Timestamp
  assigned_to : Option String := none
  reviewed_by : Option String := none
  approval_notes : Option String := none

/-- Validator `MemoryContext.validate_status` (src/schemas.py lines 154-160):
the model-level allow-list includes "archived". -/
def MemoryContext.validate_status (v : String) : Except PyError String :=
  if v ∈ ["draft", "in_review", "approved", "published", "archived"] then
    .ok v
  else
    .error (.valueError "Status must be one of the allowed workflow states")

/-- In-memory storage for agent contexts (src/schemas.py, class
AgentMemoryStore): a Python dict from context id to MemoryContext. -/
abbrev AgentMemoryStore := List (String × MemoryContext)

/-- `AgentMemoryStore.store_context` (src/schemas.py lines 203-209):
`self.contexts[context_id] = context; return True` (the except branch is
unreachable, plain dict assignment cannot raise). -/
def AgentMemoryStore.store_context (s : AgentMemoryStore) (context_id : String)
    (context : MemoryContext) : Bool × AgentMemoryStore :=
  (true, dictInsert s context_id context)

/-- `AgentMemoryStore.get_context` (src/schemas.py lines 211-213):
`return self.contexts.get(context_id)`. -/
def AgentMemoryStore.get_context (s : AgentMemoryStore) (context_id : String) :
    Option MemoryContext :=
  dictGet s context_id

/-- Modelled from the spec: the body of `AgentMemoryStore.list_contexts` is
missing from src (src/schemas.py is cut off inside its signature at line 215).
Spec section 4.4: "list(limit) → ordered sequence of contexts,
most-recently-stored-first or insertion order, truncated to limit"; we take
insertion order (Python dict order) and model the limit as a Nat. -/
def AgentMemoryStore.list_contexts (s : AgentMemoryStore) (limit : Nat) :
    List MemoryContext :=
  (s.map (fun p => p.2)).take limit

/-- Modelled from the spec: the no-argument call `memory_store.list_contexts()`
made by the stats route relies on a default limit whose value is lost in the
src truncation.  Spec section 6 describes `GET /agent/stats` as "aggregate
counts of contexts by status and by campaign type", i.e. the aggregation
covers the stored contexts, so the no-argument listing is modelled as
returning every context in insertion order. -/
def AgentMemoryStore.list_contexts_all (s : AgentMemoryStore) : List MemoryContext :=
  s.map (fun p => p.2)

/-- Modelled from the spec: the body of `AgentMemoryStore.update_status` is
missing from src (the file is cut off before it).  Spec section 4.4:
"update_status(id, newStatus) → bool: fails (returns false) if id absent;
otherwise overwrites status field only" (and, section 3, it does not bump
`updated_at`). -/
def dictUpdateStatus (s : AgentMemoryStore) (context_id new_status : String) :
    AgentMemoryStore :=
  match s with
  | [] => []
  | (k2, v) :: rest =>
    if k2 = context_id then
      (k2, { v with status := new_status }) :: dictUpdateStatus rest context_id new_status
    else
      (k2, v) :: dictUpdateStatus rest context_id new_status

/-- Status overwrite of `AgentMemoryStore.update_status`: fail when the id is
absent, otherwise replace the status field of the stored record in place. -/
def AgentMemoryStore.update_status (s : AgentMemoryStore) (context_id new_status : String) :
    Bool × AgentMemoryStore :=
  match dictGet s context_id with
  | none => (false, s)
  | some _ => (true, dictUpdateStatus s context_id new_status)

/-- Boolean check that a character list begins with another list. -/
def chStarts : List Char → List Char → Bool
  | _, [] => true
  | [], _ :: _ => false
  | a :: l1, b :: l2 => a == b && chStarts l1 l2

/-- Boolean check that a character list occurs contiguously inside another. -/
def chHasSub : List Char → List Char → Bool
  | [], needle => needle.isEmpty
  | a :: l1, needle => chStarts (a :: l1) needle || chHasSub l1 needle

/-- Python `needle in hay` on strings: contiguous substring occurrence. -/
def strContains (hay needle : String) : Bool :=
  chHasSub hay.data needle.data

/-- Python `==` between a JSON value and a string: true only for an equal string. -/
def jsonEqStr (j : Json) (s : String) : Bool :=
  match j with
  | .str t => t == s
  | _ => false

/-- Python membership `x in v` on a decoded JSON value `v`: key lookup on a
dict, element equality on a list, substring on a string, TypeError otherwise. -/
def py_contains (j : Json) (x : String) : Except PyError Bool :=
  match j with
  | .obj l => .ok (l.any (fun p => p.1 == x))
  | .arr l => .ok (l.any (fun e => jsonEqStr e x))
  | .str s => .ok (strContains s x)
  | _ => .error (.typeError "argument of type is not iterable")

/-- Python subscript `v[x]` with a string key on a decoded JSON value. -/
def py_getitem (j : Json) (x : String) : Except PyError Json :=
  match j with
  | .obj l =>
    match dictGet l x with
    | some v => .ok v
    | none => .error (.keyError x)
  | _ => .error (.typeError "indices must be integers")

/-- Pydantic coercion of a JSON value into a `str` field (accepts strings,
renders numbers and booleans, rejects the rest with a validation error). -/
def pyd_str (j : Json) : Except PyError String :=
  match j with
  | .str s => .ok s
  | .num n => .ok (toString n)
  | .bool b => .ok (if b then "True" else "False")
  | _ => .error (.validationError "str type expected")

/-- Pydantic validation of a JSON value into an `EmailCopy` record. -/
def pyd_email_copy (j : Json) : Except PyError EmailCopy :=
  match j with
  | .obj l =>
    match dictGet l "subject_line", dictGet l "body_text" with
    | some sj, some bj =>
      match pyd_str sj, pyd_str bj with
      | .ok s, .ok b => .ok { subject_line := s, body_text := b }
      | .error e, _ => .error e
      | _, .error e => .error e
    | _, _ => .error (.validationError "field required")
  | _ => .error (.validationError "value is not a valid dict")

/-- Required output keys checked by `_parse_claude_response`
(src/claude_agent.py line 194), in source order. -/
def required_fields : List String :=
  ["strategy_summary", "post_text", "email_copy", "image_prompt", "agent_notes"]

/-- Embedding of the validation loop of `_parse_claude_response`
(src/claude_agent.py lines 195-197): for each required field in order,
`if field not in response_data: raise ValueError(f"Missing required field: ...")`. -/
def check_required_fields (j : Json) : List String → Except PyError Unit
  | [] => .ok ()
  | f :: rest =>
    match py_contains j f with
    | .error e => .error e
    | .ok false => .error (.valueError ("Missing required field: " ++ f))
    | .ok true => check_required_fields j rest

/-- Outcome of `json.loads` on a raw string: a JSON value or a decode error
message (`json.JSONDecodeError`). -/
inductive DecodeResult where
  | ok (j : Json) : DecodeResult
  | err (msg : String) : DecodeResult

/-- Embedding of `CampaignAgent._parse_claude_response`
(src/claude_agent.py lines 186-217).  `decode` models `json.loads`; the
source strips the raw text before decoding, raises
`ValueError("Claude response was not valid JSON")` on a decode failure
(logging, but not carrying, the raw text), raises
`ValueError("Missing required field: <f>")` on the first absent key, and
otherwise builds the AgentResponse with `campaign_id` copied from the brief
and `generated_at = datetime.now()`.  Any other exception (TypeError from
the membership test, pydantic validation error) is re-raised unchanged. -/
def parse_claude_response (decode : String → DecodeResult) (claude_response : String)
    (brief : CampaignBrief) (now : Timestamp) : Except PyError AgentResponse :=
  match decode claude_response.trim with
  | .err _ => .error (.valueError "Claude response was not valid JSON")
  | .ok j =>
    match check_required_fields j required_fields with
    | .error e => .error e
    | .ok _ => do
      let v1 ← py_getitem j "strategy_summary"
      let ss ← pyd_str v1
      let v2 ← py_getitem j "post_text"
      let pt ← pyd_str v2
      let v3 ← py_getitem j "email_copy"
      let ec ← pyd_email_copy v3
      let v4 ← py_getitem j "image_prompt"
      let ip ← pyd_str v4
      let v5 ← py_getitem j "agent_notes"
      let an ← pyd_str v5
      return { campaign_id := brief.campaign_id
               strategy_summary := ss
               post_text := pt
               email_copy := ec
               image_prompt := ip
               agent_notes := an
               generated_at := now }

/-- Embedding of `CampaignAgent._generate_mock_response`
(src/claude_agent.py lines 219-233), f-strings translated literally
(apostrophes written with a unicode escape). -/
def generate_mock_response (brief : CampaignBrief) (now : Timestamp) : AgentResponse :=
  { campaign_id := brief.campaign_id
    strategy_summary :=
      "Mock strategy for " ++ brief.company_name ++ "\u0027s " ++ brief.campaign_type ++
      " campaign. This is a placeholder response generated without calling Claude API. The strategy focuses on " ++
      brief.target_audience ++ " with emphasis on " ++ brief.key_message ++ "."
    post_text :=
      "🚀 Exciting news from " ++ brief.company_name ++ "! " ++ brief.key_message ++
      " Perfect for " ++ brief.target_audience ++ ". #Innovation #MockPost"
    email_copy :=
      { subject_line := "Don\u0027t Miss This: " ++ brief.key_message
        body_text :=
          "Dear Valued Customer,\n\n" ++ brief.key_message ++
          "\n\nThis mock email copy is generated for " ++ brief.company_name ++
          "\u0027s " ++ brief.campaign_type ++ " campaign.\n\nBest regards,\nThe " ++
          brief.company_name ++ " Team" }
    image_prompt :=
      "Professional marketing image for " ++ brief.company_name ++ ", showing " ++
      brief.key_message ++ ", style: modern and clean, colors: brand colors, mood: " ++
      brief.brand_voice ++ ", target audience: " ++ brief.target_audience
    agent_notes :=
      "MOCK RESPONSE: This is a placeholder response for testing. In production, this would contain Claude\u0027s strategic insights about the " ++
      brief.campaign_type ++ " campaign for " ++ brief.company_name ++ "."
    generated_at := now }

/-- Embedding of `CampaignAgent._generate_fallback_response`
(src/claude_agent.py lines 235-249).  A total function: the source body is
a single constructor call over f-strings and cannot raise. -/
def generate_fallback_response (brief : CampaignBrief) (error_message : String)
    (now : Timestamp) : AgentResponse :=
  { campaign_id := brief.campaign_id
    strategy_summary :=
      "Error processing campaign brief. The agent encountered an issue but has generated fallback content for " ++
      brief.company_name ++ "\u0027s " ++ brief.campaign_type ++ " campaign."
    post_text :=
      "Updates coming soon from " ++ brief.company_name ++ "! Stay tuned. #" ++
      brief.company_name
    email_copy :=
      { subject_line := "Important Update from " ++ brief.company_name
        body_text :=
          "Hello,\n\nWe\u0027re working on something exciting and will share more details soon.\n\nThank you for your patience.\n\n" ++
          brief.company_name ++ " Team" }
    image_prompt :=
      "Simple, professional image for " ++ brief.company_name ++ ", clean design, brand colors"
    agent_notes :=
      "FALLBACK RESPONSE: Agent error - " ++ error_message ++ ". Manual review required."
    generated_at := now }

/-- Outcome of one call to the Anthropic API (`_call_claude_api`): the raw
response text, or the message of the exception the transport raised. -/
inductive ApiResult where
  | success (raw : String) : ApiResult
  | failure (msg : String) : ApiResult

/-- Environment of one `process_campaign_brief` invocation: whether an API
client was configured at startup, what a call to it would yield, what
`json.loads` yields on any string, and the current wall-clock time. -/
structure AgentEnv where
  client_available : Bool
  api_result : ApiResult
  decode : String → DecodeResult
  now : Timestamp

/-- Embedding of `CampaignAgent.process_campaign_brief`
(src/claude_agent.py lines 84-119): build the user message (pure, cannot
fail, does not affect the result), return the mock response when no client
is configured, otherwise call the API and parse; any exception from the
call or the parse is caught and converted into the fallback response with
`str(e)` as the error message.  The `_log_interaction` side effect writes a
file and swallows its own errors, so it never affects the returned value. -/
def process_campaign_brief (env : AgentEnv) (brief : CampaignBrief) : AgentResponse :=
  if env.client_available = false then
    generate_mock_response brief env.now
  else
    match env.api_result with
    | .failure msg => generate_fallback_response brief msg env.now
    | .success raw =>
      match parse_claude_response env.decode raw brief env.now with
      | .ok resp => resp
      | .error e => generate_fallback_response brief (str_of_error e) env.now

/-- HTTP errors raised by the FastAPI routes (`HTTPException`). -/
inductive HttpError where
  | badRequest (detail : String) : HttpError
  | notFound (detail : String) : HttpError
deriving DecidableEq

/-- Statuses accepted by the status-update route (src/main_app.py line 179). -/
def valid_statuses : List String :=
  ["draft", "in_review", "approved", "published"]

/-- Success body of the status-update route. -/
structure StatusUpdateResult where
  context_id : String
  new_status : String
deriving DecidableEq

/-- Embedding of route `PUT /memory/{context_id}/status`
(src/main_app.py lines 173-190, `update_context_status`): reject a status
outside the four-value allow-list with a 400 before touching the store,
then delegate to `AgentMemoryStore.update_status` and return 404 when it
reports the id absent.  The pair returns the route outcome together with
the (possibly unchanged) store. -/
def update_context_status (s : AgentMemoryStore) (context_id new_status : String) :
    Except HttpError StatusUpdateResult × AgentMemoryStore :=
  if new_status ∈ valid_statuses then
    match AgentMemoryStore.update_status s context_id new_status with
    | (false, s2) => (.error (.notFound "Context not found"), s2)
    | (true, s2) => (.ok { context_id := context_id, new_status := new_status }, s2)
  else
    (.error (.badRequest "Invalid status. Must be one of: [\u0027draft\u0027, \u0027in_review\u0027, \u0027approved\u0027, \u0027published\u0027]"), s)

/-- Embedding of route `GET /memory/{context_id}`
(src/main_app.py lines 133-143): 404 when absent. -/
def get_context_route (s : AgentMemoryStore) (context_id : String) :
    Except HttpError MemoryContext :=
  match s.get_context context_id with
  | none => .error (.notFound "Context not found")
  | some c => .ok c

/-- Summary record built by route `GET /memory`
(src/main_app.py lines 154-166): the three campaign sub-fields come from
`input_data.get(...)` and may be absent. -/
structure ContextSummary where
  context_id : String
  agent_role : String
  status : String
  created_at : Timestamp
  campaign_id : Option Json
  company_name : Option Json
  campaign_type : Option Json

/-- Summary of one stored context (loop body of `list_contexts` in
src/main_app.py lines 155-166). -/
def summarize_context (c : MemoryContext) : ContextSummary :=
  { context_id := c.context_id
    agent_role := c.agent_role
    status := c.status
    created_at := c.created_at
    campaign_id := dictGet c.input_data "campaign_id"
    company_name := dictGet c.input_data "company_name"
    campaign_type := dictGet c.input_data "campaign_type" }

/-- Response body of route `GET /memory`. -/
structure ListContextsResult where
  total_contexts : Nat
  contexts : List ContextSummary

/-- Embedding of route `GET /memory?limit=N` (src/main_app.py lines
145-171): list the store truncated to `limit`, summarize each context, and
report `total_contexts := len(summaries)` — the count after truncation. -/
def list_contexts_route (s : AgentMemoryStore) (limit : Nat) : ListContextsResult :=
  let summaries := (s.list_contexts limit).map summarize_context
  { total_contexts := summaries.length, contexts := summaries }

/-- Hashable Python values that can appear as keys of the stats dictionaries;
a JSON array or object key would raise TypeError (unhashable type). -/
inductive JsonKey where
  | null : JsonKey
  | bool (b : Bool) : JsonKey
  | num (n : Int) : JsonKey
  | str (s : String) : JsonKey
deriving DecidableEq

/-- Python hashing of a decoded JSON value used as a dict key: arrays and
objects (Python list/dict) are unhashable and raise TypeError. -/
def json_key (j : Json) : Except PyError JsonKey :=
  match j with
  | .null => .ok .null
  | .bool b => .ok (.bool b)
  | .num n => .ok (.num n)
  | .str s => .ok (.str s)
  | .arr _ => .error (.typeError "unhashable type: list")
  | .obj _ => .error (.typeError "unhashable type: dict")

/-- Python `counts[k] = counts.get(k, 0) + 1` on an insertion-ordered dict. -/
def bump {α : Type} [DecidableEq α] (m : List (α × Nat)) (k : α) : List (α × Nat) :=
  match m with
  | [] => [(k, 1)]
  | (k2, n) :: rest => if k2 = k then (k2, n + 1) :: rest else (k2, n) :: bump rest k

/-- Sum of the counts held in a counting dictionary. -/
def countSum {α : Type} (m : List (α × Nat)) : Nat :=
  m.foldr (fun p acc => p.2 + acc) 0

/-- Statistics body of route `GET /agent/stats` (src/main_app.py lines
224-230). -/
structure AgentStats where
  total_campaigns : Nat
  status_breakdown : List (String × Nat)
  campaign_types : List (JsonKey × Nat)

/-- Aggregation loop of `get_agent_stats` (src/main_app.py lines 215-222):
per context, bump the count of its status and of its campaign type
(`input_data.get("campaign_type", "unknown")`). -/
def stats_fold (cs : List MemoryContext) (sc : List (String × Nat))
    (ct : List (JsonKey × Nat)) :
    Except PyError (List (String × Nat) × List (JsonKey × Nat)) :=
  match cs with
  | [] => .ok (sc, ct)
  | c :: rest =>
    match json_key ((dictGet c.input_data "campaign_type").getD (Json.str "unknown")) with
    | .error e => .error e
    | .ok k => stats_fold rest (bump sc c.status) (bump ct k)

/-- Embedding of route `GET /agent/stats` (src/main_app.py lines 204-230).
The listing of the store is the spec-modelled `list_contexts_all` (see its
doc comment); the only failure mode of the aggregation is an unhashable
campaign-type value, which no context created by the service can contain. -/
def get_agent_stats (s : AgentMemoryStore) : Except PyError AgentStats :=
  let contexts := s.list_contexts_all
  match stats_fold contexts [] [] with
  | .error e => .error e
  | .ok (sc, ct) =>
    .ok { total_campaigns := contexts.length, status_breakdown := sc, campaign_types := ct }

/-- Calendar dates for the mock-brief deadline computation. -/
structure Date where
  year : Nat
  month : Nat
  day : Nat
deriving DecidableEq

/-- Gregorian leap-year rule. -/
def isLeapYear (y : Nat) : Bool :=
  (y % 4 == 0 && y % 100 != 0) || (y % 400 == 0)

/-- Number of days in a month of a given year. -/
def daysInMonth (y m : Nat) : Nat :=
  if m = 2 then (if isLeapYear y then 29 else 28)
  else if m ∈ [4, 6, 9, 11] then 30
  else 31

/-- Python `datetime.replace(day=newDay)`: keeps year and month and raises
`ValueError("day is out of range for month")` when the requested day does
not exist in that month. -/
def date_replace_day (d : Date) (newDay : Nat) : Except PyError Date :=
  if 1 ≤ newDay ∧ newDay ≤ daysInMonth d.year d.month then
    .ok { d with day := newDay }
  else
    .error (.valueError "day is out of range for month")

/-- Embedding of the deadline computation of route `POST /mock/brief`
(src/main_app.py line 126):
`datetime.now().replace(day=datetime.now().day + 14)`. -/
def create_mock_brief_deadline (now : Date) : Except PyError Date :=
  date_replace_day now (now.day + 14)

/-- Successor day in the Gregorian calendar. -/
def nextCalendarDay (d : Date) : Date :=
  if d.day < daysInMonth d.year d.month then { d with day := d.day + 1 }
  else if d.month < 12 then { year := d.year, month := d.month + 1, day := 1 }
  else { year := d.year + 1, month := 1, day := 1 }

/-- Modelled from the spec: calendar-correct "now + n days" (spec section 6
describes the intended deadline as "now + 14 days"), the reference the
code's computation is compared against. -/
def addCalendarDays (n : Nat) (d : Date) : Date :=
  match n with
  | 0 => d
  | n + 1 => addCalendarDays n (nextCalendarDay d)


/-- Concrete brief used by the witness and counterexample theorems. -/
def sampleBrief : CampaignBrief :=
  { campaign_id := "CAMP_2024_001"
    company_name := "TechStart Inc"
    brand_name := "TechStart"
    campaign_type := "product_launch"
    objective := "Launch new SaaS product"
    target_audience := "Software developers"
    key_message := "Save half your coding time"
    brand_voice := "professional"
    brand_values := "innovation"
    budget := "50000"
    platforms := []
    deadline := "2024-12-15T23:59:59Z"
    created_date := "2024-11-01T10:00:00Z"
    additional_notes := none
    airtable_record_id := none
    assigned_to := none
    priority := some "medium" }

/-- Concrete stored context used by the witness theorems. -/
def sampleContext : MemoryContext :=
  { context_id := "ctx1"
    agent_role := "Campaign Manager"
    input_data :=
      [("campaign_id", Json.str "CAMP_2024_001"),
       ("company_name", Json.str "TechStart Inc"),
       ("campaign_type", Json.str "product_launch")]
    conversation_history := []
    output_memory := []
    reasoning_log := []
    status := "draft"
    created_at := 0
    updated_at := 0 }

/-- Second concrete stored context (no campaign_type key in its input data). -/
def sampleContext2 : MemoryContext :=
  { context_id := "ctx2"
    agent_role := "Campaign Manager"
    input_data := []
    conversation_history := []
    output_memory := []
    reasoning_log := []
    status := "approved"
    created_at := 1
    updated_at := 1 }

/-- Concrete one-entry store used by the witness theorems. -/
def sampleStore : AgentMemoryStore := [("ctx1", sampleContext)]

/-- Concrete two-entry store used by the stats witness. -/
def statsStore : AgentMemoryStore := [("ctx1", sampleContext), ("ctx2", sampleContext2)]

/-- Statistics expected of `statsStore`. -/
def statsExpected : AgentStats :=
  { total_campaigns := 2
    status_breakdown := [("draft", 1), ("approved", 1)]
    campaign_types := [(JsonKey.str "product_launch", 1), (JsonKey.str "unknown", 1)] }

/-- Concrete environment with a configured client whose response fails to decode. -/
def envC2 : AgentEnv :=
  { client_available := true
    api_result := .success "certainly not JSON"
    decode := fun _ => .err "Expecting value: line 1 column 1 (char 0)"
    now := 0 }

/-- Concrete environment without a configured client (first run). -/
def envMockA : AgentEnv :=
  { client_available := false
    api_result := .failure "network down"
    decode := fun _ => .err "x"
    now := 5 }

/-- Concrete environment without a configured client (second run, later time). -/
def envMockB : AgentEnv :=
  { client_available := false
    api_result := .success "whatever"
    decode := fun _ => .ok Json.null
    now := 99 }

/-- Helper: a string with a nonempty left part is nonempty. -/
theorem append_ne_empty_left (a b : String) (h : a ≠ "") : a ++ b ≠ "" := by
  intro hab
  apply h
  apply String.ext
  have hd := congrArg String.data hab
  rw [String.data_append] at hd
  exact (List.append_eq_nil.mp hd).1

/-- Helper: looking up a key right after inserting it returns the inserted value. -/
theorem dictGet_dictInsert {α : Type} (l : List (String × α)) (k : String) (v : α) :
    dictGet (dictInsert l k v) k = some v := by
  induction l with
  | nil => simp [dictGet, dictInsert]
  | cons p rest ih =>
    by_cases h : p.1 = k <;> simp [dictGet, dictInsert, h, ih]

/-- Helper: the count sum of an empty dictionary. -/
theorem countSum_nil {α : Type} : countSum ([] : List (α × Nat)) = 0 := rfl

/-- Helper: the count sum of a nonempty dictionary. -/
theorem countSum_cons {α : Type} (p : α × Nat) (rest : List (α × Nat)) :
    countSum (p :: rest) = p.2 + countSum rest := rfl

/-- Helper: bumping a count increases the total count by one. -/
theorem countSum_bump {α : Type} [DecidableEq α] (m : List (α × Nat)) (k : α) :
    countSum (bump m k) = countSum m + 1 := by
  induction m with
  | nil => rfl
  | cons p rest ih =>
    rcases p with ⟨k2, n⟩
    by_cases h : k2 = k
    · simp [bump, h, countSum_cons]
      omega
    · simp [bump, h, countSum_cons, ih]
      omega

/-- Helper: a successful stats fold adds one count per context to each sum. -/
theorem stats_fold_ok_sums (cs : List MemoryContext) :
    ∀ sc ct sc2 ct2, stats_fold cs sc ct = .ok (sc2, ct2) →
      countSum sc2 = countSum sc + cs.length ∧ countSum ct2 = countSum ct + cs.length := by
  induction cs with
  | nil =>
    intro sc ct sc2 ct2 h
    simp [stats_fold] at h
    simp [h.1, h.2]
  | cons c rest ih =>
    intro sc ct sc2 ct2 h
    unfold stats_fold at h
    split at h
    · exact absurd h (by simp)
    · obtain ⟨h1, h2⟩ := ih _ _ _ _ h
      rw [countSum_bump] at h1
      rw [countSum_bump] at h2
      simp only [List.length_cons]
      omega

/-- Helper: after updating a present key, looking it up returns the record
with only its status replaced. -/
theorem dictGet_dictUpdateStatus (s : AgentMemoryStore) (id st : String) (c : MemoryContext)
    (h : dictGet s id = some c) :
    dictGet (dictUpdateStatus s id st) id = some { c with status := st } := by
  induction s with
  | nil => simp [dictGet] at h
  | cons p rest ih =>
    rcases p with ⟨k2, v⟩
    by_cases hp : k2 = id
    · simp [dictGet, hp] at h
      simp [dictUpdateStatus, dictGet, hp, h]
    · simp [dictGet, hp] at h
      simp [dictUpdateStatus, dictGet, hp, ih h]

/-- Helper: updating one key leaves every other key's lookup unchanged. -/
theorem dictGet_dictUpdateStatus_ne (s : AgentMemoryStore) (id st k : String) (hk : k ≠ id) :
    dictGet (dictUpdateStatus s id st) k = dictGet s k := by
  induction s with
  | nil => simp [dictGet, dictUpdateStatus]
  | cons p rest ih =>
    rcases p with ⟨k2, v⟩
    by_cases hp : k2 = id
    · subst hp
      have hne : ¬ k2 = k := fun he => hk he.symm
      simp [dictUpdateStatus, dictGet, hne, ih]
    · by_cases hpk : k2 = k <;> simp [dictUpdateStatus, dictGet, hp, hpk, hk, ih]

/-- First field of a list of required fields that is not a key of the given
JSON-object entry list (the field whose check fails first in the source's
validation loop). -/
def firstMissing (l : List (String × Json)) : List String → Option String
  | [] => none
  | f :: rest => if l.any (fun p => p.1 == f) then firstMissing l rest else some f

/-- First of the five required output keys missing from a JSON object. -/
def firstMissingField (l : List (String × Json)) : Option String :=
  firstMissing l required_fields

/-- Helper: on a JSON object, the validation loop raises
`ValueError("Missing required field: <f>")` for the first missing field. -/
theorem check_required_fields_obj_missing (l : List (String × Json)) (fs : List String)
    (f : String) (h : firstMissing l fs = some f) :
    check_required_fields (Json.obj l) fs
      = .error (.valueError ("Missing required field: " ++ f)) := by
  induction fs with
  | nil => simp [firstMissing] at h
  | cons f0 rest ih =>
    by_cases hb : l.any (fun p => p.1 == f0)
    · simp [firstMissing, hb] at h
      simp [check_required_fields, py_contains, hb, ih h]
    · simp [firstMissing, hb] at h
      subst h
      simp [check_required_fields, py_contains, hb]

/-- Helper: a successful parse copies the campaign id from the brief and
stamps the current time. -/
theorem parse_ok_campaign_id (decode : String → DecodeResult) (raw : String)
    (brief : CampaignBrief) (now : Timestamp) (r : AgentResponse)
    (hp : parse_claude_response decode raw brief now = .ok r) :
    r.campaign_id = brief.campaign_id ∧ r.generated_at = now := by
  unfold parse_claude_response at hp
  split at hp
  · simp at hp
  · split at hp
    · simp at hp
    · simp only [bind, Except.bind, pure, Except.pure] at hp
      repeat' split at hp
      all_goals cases hp
      all_goals exact ⟨rfl, rfl⟩

/-- C1: For every valid CampaignBrief, `process_campaign_brief` returns an
AgentResponse whose campaign_id equals the brief's campaign_id, whichever of
the three strategies (Parse, Mock, Fallback) produced the response.  Proved
for every brief and every environment, so in particular for every valid
brief. -/
theorem C1_process_preserves_campaign_id (env : AgentEnv) (brief : CampaignBrief) :
    (process_campaign_brief env brief).campaign_id = brief.campaign_id := by
  unfold process_campaign_brief
  by_cases h : env.client_available = false
  · simp [h, generate_mock_response]
  · simp only [if_neg h]
    cases hr : env.api_result with
    | failure msg => simp [generate_fallback_response]
    | success raw =>
      dsimp only
      cases hp : parse_claude_response env.decode raw brief env.now with
      | error e => simp [generate_fallback_response]
      | ok r =>
        dsimp only
        exact (parse_ok_campaign_id env.decode raw brief env.now r hp).1

/-- C3: For every brief and every error message string, the Fallback strategy
(a total Lean function, mirroring a source body that is a single constructor
call and can never raise) returns a structurally valid AgentResponse: its
agent_notes equals the fixed prefix, then the literal failure reason string,
then ". Manual review required.", and all five generated fields are
nonempty. -/
theorem C3_fallback_labelled_and_valid (brief : CampaignBrief) (msg : String)
    (now : Timestamp) :
    (generate_fallback_response brief msg now).agent_notes
      = "FALLBACK RESPONSE: Agent error - " ++ msg ++ ". Manual review required."
    ∧ (generate_fallback_response brief msg now).campaign_id = brief.campaign_id
    ∧ (generate_fallback_response brief msg now).strategy_summary ≠ ""
    ∧ (generate_fallback_response brief msg now).post_text ≠ ""
    ∧ (generate_fallback_response brief msg now).email_copy.subject_line ≠ ""
    ∧ (generate_fallback_response brief msg now).email_copy.body_text ≠ ""
    ∧ (generate_fallback_response brief msg now).image_prompt ≠ ""
    ∧ (generate_fallback_response brief msg now).agent_notes ≠ "" := by
  refine ⟨rfl, rfl, ?_, ?_, ?_, ?_, ?_, ?_⟩
  all_goals unfold generate_fallback_response
  all_goals repeat apply append_ne_empty_left
  all_goals decide

/-- C4: When no API credential is configured (client is None), the Mock
strategy is deterministic: two runs of `process_campaign_brief` on the same
brief, in any two environments without a client, yield responses equal in
every field except the generated_at timestamp. -/
theorem C4_mock_deterministic (e1 e2 : AgentEnv) (brief : CampaignBrief)
    (h1 : e1.client_available = false) (h2 : e2.client_available = false) :
    (process_campaign_brief e1 brief).campaign_id
      = (process_campaign_brief e2 brief).campaign_id
    ∧ (process_campaign_brief e1 brief).context_id
      = (process_campaign_brief e2 brief).context_id
    ∧ (process_campaign_brief e1 brief).strategy_summary
      = (process_campaign_brief e2 brief).strategy_summary
    ∧ (process_campaign_brief e1 brief).post_text
      = (process_campaign_brief e2 brief).post_text
    ∧ (process_campaign_brief e1 brief).email_copy
      = (process_campaign_brief e2 brief).email_copy
    ∧ (process_campaign_brief e1 brief).image_prompt
      = (process_campaign_brief e2 brief).image_prompt
    ∧ (process_campaign_brief e1 brief).agent_notes
      = (process_campaign_brief e2 brief).agent_notes
    ∧ (process_campaign_brief e1 brief).confidence_score
      = (process_campaign_brief e2 brief).confidence_score := by
  unfold process_campaign_brief
  simp [h1, h2, generate_mock_response]

/-- C4 witness: two concrete clientless environments at different times,
applied to the concrete brief. -/
theorem C4_witness :
    (process_campaign_brief envMockA sampleBrief).campaign_id
      = (process_campaign_brief envMockB sampleBrief).campaign_id
    ∧ (process_campaign_brief envMockA sampleBrief).context_id
      = (process_campaign_brief envMockB sampleBrief).context_id
    ∧ (process_campaign_brief envMockA sampleBrief).strategy_summary
      = (process_campaign_brief envMockB sampleBrief).strategy_summary
    ∧ (process_campaign_brief envMockA sampleBrief).post_text
      = (process_campaign_brief envMockB sampleBrief).post_text
    ∧ (process_campaign_brief envMockA sampleBrief).email_copy
      = (process_campaign_brief envMockB sampleBrief).email_copy
    ∧ (process_campaign_brief envMockA sampleBrief).image_prompt
      = (process_campaign_brief envMockB sampleBrief).image_prompt
    ∧ (process_campaign_brief envMockA sampleBrief).agent_notes
      = (process_campaign_brief envMockB sampleBrief).agent_notes
    ∧ (process_campaign_brief envMockA sampleBrief).confidence_score
      = (process_campaign_brief envMockB sampleBrief).confidence_score :=
  C4_mock_deterministic envMockA envMockB sampleBrief rfl rfl

/-- C5: evidence for the deadline bug.  The claim (and spec section 6) intend
the mock-brief deadline to be "now + 14 days" by calendar-correct addition
that succeeds on every day of the month; the code computes
`datetime.now().replace(day=datetime.now().day + 14)`, which raises
`ValueError("day is out of range for month")` whenever day + 14 exceeds the
month length (here 2024-01-20 → replace(day=34)), while calendar addition
yields 2024-02-03; on early days of the month the two agree, confirming that
the `replace` call is a slip for date addition. -/
theorem C5_deadline_day_overflow :
    create_mock_brief_deadline { year := 2024, month := 1, day := 20 }
      = .error (.valueError "day is out of range for month")
    ∧ addCalendarDays 14 { year := 2024, month := 1, day := 20 }
      = { year := 2024, month := 2, day := 3 }
    ∧ create_mock_brief_deadline { year := 2024, month := 1, day := 1 }
      = .ok { year := 2024, month := 1, day := 15 }
    ∧ addCalendarDays 14 { year := 2024, month := 1, day := 1 }
      = { year := 2024, month := 1, day := 15 } :=
  ⟨rfl, rfl, rfl, rfl⟩

/-- C2 counterexample: on a concrete raw text that is not valid JSON, the
Parse strategy raises `ValueError("Claude response was not valid JSON")` —
a fixed message that does not carry the offending raw text (the source only
writes the raw text to its log), refuting the claim that the raised error
carries the offending raw text. -/
theorem C2_counterexample :
    parse_claude_response
        (fun _ => DecodeResult.err "Expecting value: line 1 column 1 (char 0)")
        "certainly not JSON" sampleBrief 0
      = .error (.valueError "Claude response was not valid JSON")
    ∧ strContains "Claude response was not valid JSON" "certainly not JSON" = false :=
  ⟨rfl, rfl⟩

/-- C2 (amended): for every raw text that fails to decode as JSON, Parse
raises the fixed ValueError "Claude response was not valid JSON" (the raw
text is logged, not carried in the error); for every decoded JSON object
missing one of the five required keys, Parse raises
ValueError "Missing required field: f" naming the first missing key; and
the service layer converts every Parse error into the Fallback response
built from str(e), so no raw decode error reaches the external boundary. -/
theorem C2_parse_error_to_fallback (decode : String → DecodeResult) (raw : String)
    (brief : CampaignBrief) (now : Timestamp) (env : AgentEnv) (e : PyError) :
    (∀ m, decode raw.trim = .err m →
      parse_claude_response decode raw brief now
        = .error (.valueError "Claude response was not valid JSON"))
    ∧ (∀ l f, decode raw.trim = .ok (.obj l) → firstMissingField l = some f →
      parse_claude_response decode raw brief now
        = .error (.valueError ("Missing required field: " ++ f)))
    ∧ (∀ raw2, env.client_available = true → env.api_result = .success raw2 →
      parse_claude_response env.decode raw2 brief env.now = .error e →
      process_campaign_brief env brief
        = generate_fallback_response brief (str_of_error e) env.now) := by
  refine ⟨?_, ?_, ?_⟩
  · intro m hm
    unfold parse_claude_response
    rw [hm]
  · intro l f hok hf
    unfold parse_claude_response
    rw [hok]
    dsimp only
    rw [check_required_fields_obj_missing l required_fields f hf]
  · intro raw2 hc hr hp
    unfold process_campaign_brief
    rw [hc, hr]
    dsimp only
    rw [hp]
    simp

/-- C2 witness: the three branches of the amended theorem at concrete
inputs: a decode failure, an object missing post_text, and the service
conversion of the decode failure into the fallback response. -/
theorem C2_witness :
    parse_claude_response
        (fun _ => DecodeResult.err "Expecting value: line 1 column 1 (char 0)")
        "oops" sampleBrief 0
      = .error (.valueError "Claude response was not valid JSON")
    ∧ parse_claude_response
        (fun _ => DecodeResult.ok (Json.obj [("strategy_summary", Json.str "s")]))
        "x" sampleBrief 0
      = .error (.valueError ("Missing required field: " ++ "post_text"))
    ∧ process_campaign_brief envC2 sampleBrief
        = generate_fallback_response sampleBrief
            (str_of_error (.valueError "Claude response was not valid JSON")) 0 := by
  refine ⟨?_, ?_, ?_⟩
  · exact (C2_parse_error_to_fallback
      (fun _ => DecodeResult.err "Expecting value: line 1 column 1 (char 0)")
      "oops" sampleBrief 0 envC2 (.valueError "x")).1
      "Expecting value: line 1 column 1 (char 0)" rfl
  · exact (C2_parse_error_to_fallback
      (fun _ => DecodeResult.ok (Json.obj [("strategy_summary", Json.str "s")]))
      "x" sampleBrief 0 envC2 (.valueError "x")).2.1
      [("strategy_summary", Json.str "s")] "post_text" rfl rfl
  · exact (C2_parse_error_to_fallback (fun _ => DecodeResult.err "m") "y" sampleBrief 0
      envC2 (.valueError "Claude response was not valid JSON")).2.2
      "certainly not JSON" rfl rfl rfl

/-- C6: the status-update route accepts exactly the four values draft,
in_review, approved, published: every other value — including "archived",
which the MemoryContext model validator accepts — is rejected with a 400
before the store is mutated, leaving the prior record unchanged and
retrievable; a valid status with an absent id yields a 404 with the store
unchanged; and a valid status with a present id succeeds. -/
theorem C6_status_route_allowlist (s : AgentMemoryStore) (id v : String) :
    (v ∉ valid_statuses →
      update_context_status s id v
        = (.error (.badRequest "Invalid status. Must be one of: ['draft', 'in_review', 'approved', 'published']"), s))
    ∧ (v ∉ valid_statuses → ∀ c, s.get_context id = some c →
      ((update_context_status s id v).2).get_context id = some c)
    ∧ MemoryContext.validate_status "archived" = .ok "archived"
    ∧ "archived" ∉ valid_statuses
    ∧ (v ∈ valid_statuses → s.get_context id = none →
      update_context_status s id v = (.error (.notFound "Context not found"), s))
    ∧ (∀ c, v ∈ valid_statuses → s.get_context id = some c →
      (update_context_status s id v).1 = .ok { context_id := id, new_status := v }
      ∧ ((update_context_status s id v).2).get_context id
          = some { c with status := v }) := by
  refine ⟨?_, ?_, rfl, by decide, ?_, ?_⟩
  · intro hv
    simp [update_context_status, hv]
  · intro hv c hc
    simp [update_context_status, hv]
    exact hc
  · intro hv hnone
    have h' : dictGet s id = none := hnone
    simp [update_context_status, hv, AgentMemoryStore.update_status, h']
  · intro c hv hc
    have h' : dictGet s id = some c := hc
    constructor
    · simp [update_context_status, hv, AgentMemoryStore.update_status, h']
    · have hroute :
          (update_context_status s id v).2 = dictUpdateStatus s id v := by
        simp [update_context_status, hv, AgentMemoryStore.update_status, h']
      rw [hroute]
      exact dictGet_dictUpdateStatus s id v c h'

/-- C6 witness: on the concrete one-entry store, "archived" is rejected with
a 400 and the record keeps status "draft"; an absent id with a valid status
yields a 404; a valid status on the present id succeeds. -/
theorem C6_witness :
    update_context_status sampleStore "ctx1" "archived"
      = (.error (.badRequest "Invalid status. Must be one of: ['draft', 'in_review', 'approved', 'published']"), sampleStore)
    ∧ ((update_context_status sampleStore "ctx1" "archived").2).get_context "ctx1"
      = some sampleContext
    ∧ update_context_status sampleStore "missing" "approved"
      = (.error (.notFound "Context not found"), sampleStore)
    ∧ (update_context_status sampleStore "ctx1" "approved").1
      = .ok { context_id := "ctx1", new_status := "approved" } := by
  refine ⟨?_, ?_, ?_, ?_⟩
  · exact (C6_status_route_allowlist sampleStore "ctx1" "archived").1 (by decide)
  · exact (C6_status_route_allowlist sampleStore "ctx1" "archived").2.1 (by decide)
      sampleContext rfl
  · exact (C6_status_route_allowlist sampleStore "missing" "approved").2.2.2.2.1
      (by decide) rfl
  · exact ((C6_status_route_allowlist sampleStore "ctx1" "approved").2.2.2.2.2
      sampleContext (by decide) rfl).1

/-- C7: a successful status update overwrites the status field only — the
stored record afterwards is the old record with just its status replaced
(so every other field, updated_at included, is unchanged), lookups of other
ids are untouched — and update_status returns false, leaving the store
as-is, when the id is absent. -/
theorem C7_update_status_overwrites_status_only (s : AgentMemoryStore) (id st : String) :
    (s.get_context id = none → s.update_status id st = (false, s))
    ∧ (∀ c, s.get_context id = some c →
      (s.update_status id st).1 = true
      ∧ ((s.update_status id st).2).get_context id = some { c with status := st }
      ∧ (∀ k, k ≠ id → ((s.update_status id st).2).get_context k = s.get_context k)) := by
  constructor
  · intro h
    have h' : dictGet s id = none := h
    simp [AgentMemoryStore.update_status, h']
  · intro c h
    have h' : dictGet s id = some c := h
    refine ⟨?_, ?_, ?_⟩
    · simp [AgentMemoryStore.update_status, h']
    · have hs2 : (s.update_status id st).2 = dictUpdateStatus s id st := by
        simp [AgentMemoryStore.update_status, h']
      rw [hs2]
      exact dictGet_dictUpdateStatus s id st c h'
    · intro k hk
      have hs2 : (s.update_status id st).2 = dictUpdateStatus s id st := by
        simp [AgentMemoryStore.update_status, h']
      rw [hs2]
      exact dictGet_dictUpdateStatus_ne s id st k hk

/-- C7 witness: the concrete store: absent id fails and leaves the store;
present id succeeds, rewrites only the status, and other lookups agree. -/
theorem C7_witness :
    sampleStore.update_status "missing" "approved" = (false, sampleStore)
    ∧ (sampleStore.update_status "ctx1" "approved").1 = true
    ∧ ((sampleStore.update_status "ctx1" "approved").2).get_context "ctx1"
      = some { sampleContext with status := "approved" }
    ∧ ((sampleStore.update_status "ctx1" "approved").2).get_context "other"
      = sampleStore.get_context "other" := by
  refine ⟨?_, ?_, ?_, ?_⟩
  · exact (C7_update_status_overwrites_status_only sampleStore "missing" "approved").1 rfl
  · exact ((C7_update_status_overwrites_status_only sampleStore "ctx1" "approved").2
      sampleContext rfl).1
  · exact ((C7_update_status_overwrites_status_only sampleStore "ctx1" "approved").2
      sampleContext rfl).2.1
  · exact ((C7_update_status_overwrites_status_only sampleStore "ctx1" "approved").2
      sampleContext rfl).2.2 "other" (by decide)

/-- C8: round-trip — storing a context under an identifier reports success
and immediately fetching that identifier returns a value equal to the stored
one in all fields. -/
theorem C8_store_then_get_roundtrip (s : AgentMemoryStore) (id : String)
    (c : MemoryContext) :
    (s.store_context id c).1 = true
    ∧ ((s.store_context id c).2).get_context id = some c :=
  ⟨rfl, dictGet_dictInsert s id c⟩

/-- C9: for every state of the store on which the stats route returns (its
only failure mode is an unhashable campaign-type value, impossible for
contexts created by the service), the reported total equals the number of
contexts in the store, and the per-status and per-campaign-type counts each
sum to that total, regardless of how many contexts are stored. -/
theorem C9_stats_aggregate_all_contexts (s : AgentMemoryStore) (st : AgentStats)
    (h : get_agent_stats s = .ok st) :
    st.total_campaigns = s.length
    ∧ countSum st.status_breakdown = st.total_campaigns
    ∧ countSum st.campaign_types = st.total_campaigns := by
  unfold get_agent_stats at h
  dsimp only at h
  cases hf : stats_fold s.list_contexts_all [] [] with
  | error e => rw [hf] at h; exact absurd h (by simp)
  | ok p =>
    obtain ⟨sc, ct⟩ := p
    rw [hf] at h
    dsimp only at h
    cases h
    obtain ⟨h1, h2⟩ := stats_fold_ok_sums s.list_contexts_all [] [] sc ct hf
    rw [countSum_nil] at h1 h2
    refine ⟨?_, ?_, ?_⟩
    · simp [AgentMemoryStore.list_contexts_all]
    · simpa using h1
    · simpa using h2

/-- C9 witness: the concrete two-entry store (one context per status, one
missing its campaign_type and counted under "unknown"). -/
theorem C9_witness :
    get_agent_stats statsStore = .ok statsExpected
    ∧ statsExpected.total_campaigns = statsStore.length
    ∧ countSum statsExpected.status_breakdown = statsExpected.total_campaigns
    ∧ countSum statsExpected.campaign_types = statsExpected.total_campaigns :=
  ⟨rfl, C9_stats_aggregate_all_contexts statsStore statsExpected rfl⟩

/-- C10: the listing route reports total_contexts equal to the number of
summaries actually returned after truncation to the requested limit — the
minimum of the limit and the store size — not the total number of contexts
held in the store. -/
theorem C10_list_total_is_truncated_count (s : AgentMemoryStore) (limit : Nat) :
    (list_contexts_route s limit).total_contexts
      = (list_contexts_route s limit).contexts.length
    ∧ (list_contexts_route s limit).total_contexts = min limit s.length := by
  constructor
  · rfl
  · simp [list_contexts_route, AgentMemoryStore.list_contexts]
